import Mathlib

/-!
Verification of the DarkNet assembly algorithm (`gluon/models/darknet.py`).

The development shallowly embeds the construction code: each conv block is a
`ConvBlockSpec` record, a stage is its block list plus an optional trailing
2x2/stride-2 max-downsample, and `mkDarkNet` mirrors the nested loops of
`DarkNet.__init__`.  `get_darknet` mirrors the variant registry with its two
error paths.  Shapes are propagated by an executable `applyLayer` semantics and
trainable-parameter counts by `layerParamCount` (conv weights, head bias, and
the two differentiable batch-norm parameter vectors per normalization).
-/

namespace DarkNetModel

/-- A convolution unit spec as produced by `dark_convYxY`:
`DarkConv(in_channels, out_channels, kernel_size, padding)` (bias-free conv,
then batch norm, then leaky ReLU). -/
structure ConvBlockSpec where
  inChannels : Nat
  outChannels : Nat
  kernelSize : Nat
  padding : Nat
  deriving Repr, DecidableEq

/-- `dark_conv1x1`: pointwise conv block, kernel 1, padding 0. -/
def dark_conv1x1 (inChannels outChannels : Nat) : ConvBlockSpec :=
  { inChannels := inChannels, outChannels := outChannels, kernelSize := 1, padding := 0 }

/-- `dark_conv3x3`: spatial conv block, kernel 3, padding 1. -/
def dark_conv3x3 (inChannels outChannels : Nat) : ConvBlockSpec :=
  { inChannels := inChannels, outChannels := outChannels, kernelSize := 3, padding := 1 }

/-- `dark_convYxY(in_channels, out_channels, pointwise)`. -/
def dark_convYxY (inChannels outChannels : Nat) (pointwise : Bool) : ConvBlockSpec :=
  if pointwise then dark_conv1x1 inChannels outChannels
  else dark_conv3x3 inChannels outChannels

/-- The `pointwise` argument computed in `DarkNet.__init__` for the block at
0-based index `j` of a stage whose channel list has length `L`:
`(len(channels_per_stage) > 1) and not(((j + 1) % 2 == 1) ^ odd_pointwise)`. -/
def pointwiseFlag (L j : Nat) (oddPointwise : Bool) : Bool :=
  decide (L > 1) && !(xor (decide ((j + 1) % 2 = 1)) oddPointwise)

/-- The inner loop of `DarkNet.__init__` over `channels_per_stage`, carrying the
running `in_channels` and the enumeration index `j`; returns the stage's conv
blocks and the final `in_channels`. -/
def stageBlocksAux (L : Nat) (oddPointwise : Bool) :
    List Nat → Nat → Nat → List ConvBlockSpec × Nat
  | [], inChannels, _ => ([], inChannels)
  | outChannels :: rest, inChannels, j =>
    let tail := stageBlocksAux L oddPointwise rest outChannels (j + 1)
    (dark_convYxY inChannels outChannels (pointwiseFlag L j oddPointwise) :: tail.1, tail.2)

/-- Builds one stage's conv blocks from its channel list, starting the
enumeration at `j = 0` as in the source. -/
def stageBlocks (channelsPerStage : List Nat) (inChannels : Nat) (oddPointwise : Bool) :
    List ConvBlockSpec × Nat :=
  stageBlocksAux channelsPerStage.length oddPointwise channelsPerStage inChannels 0

/-- One assembled stage: its conv blocks, and whether a trailing
`MaxPool2D(pool_size=2, strides=2)` downsample was appended. -/
structure DarkStage where
  blocks : List ConvBlockSpec
  downsample : Bool
  deriving Repr, DecidableEq

/-- The outer loop of `DarkNet.__init__` over `channels`, carrying the running
`in_channels` and the stage index `i`; a downsample is appended exactly when
`i != len(channels) - 1`. -/
def buildStagesAux (oddPointwise : Bool) (total : Nat) :
    List (List Nat) → Nat → Nat → List DarkStage × Nat
  | [], inChannels, _ => ([], inChannels)
  | channelsPerStage :: rest, inChannels, i =>
    let stage := stageBlocks channelsPerStage inChannels oddPointwise
    let tail := buildStagesAux oddPointwise total rest stage.2 (i + 1)
    ({ blocks := stage.1, downsample := decide (i ≠ total - 1) } :: tail.1, tail.2)

/-- The assembled network: stages, then the head (a biased 1x1 projection conv
from `headInChannels` to `classes` channels, optional leaky ReLU, average pool
of window `avgPoolSize` with stride 1, flatten). -/
structure DarkNet where
  stages : List DarkStage
  headInChannels : Nat
  clsActiv : Bool
  avgPoolSize : Nat
  classes : Nat
  deriving Repr, DecidableEq

/-- `DarkNet.__init__(channels, odd_pointwise, avg_pool_size, cls_activ,
in_channels=3, classes=1000)`. -/
def mkDarkNet (channels : List (List Nat)) (oddPointwise : Bool) (avgPoolSize : Nat)
    (clsActiv : Bool) (inChannels : Nat := 3) (classes : Nat := 1000) : DarkNet :=
  let built := buildStagesAux oddPointwise channels.length channels inChannels 0
  { stages := built.1, headInChannels := built.2, clsActiv := clsActiv,
    avgPoolSize := avgPoolSize, classes := classes }

/-- The two failure modes of `get_darknet` (both `ValueError` in the source,
distinguished by message). -/
inductive DarkNetError where
  | unsupportedVariant (version : String)
  | pretrainedUnsupported
  deriving Repr, DecidableEq

/-- A variant configuration, as selected by the `version` dispatch in
`get_darknet`. -/
structure VariantConfig where
  channels : List (List Nat)
  oddPointwise : Bool
  avgPoolSize : Nat
  clsActiv : Bool
  deriving Repr, DecidableEq

/-- `get_darknet(version, pretrained)`: the version dispatch runs first (raising
`Unsupported DarkNet version` for unknown names), then the pretrained check
(raising `Pretrained model is not supported`), then the constructor. -/
def get_darknet (version : String) (pretrained : Bool) : Except DarkNetError DarkNet :=
  match
    (if version = "ref" then
      some { channels := [[16], [32], [64], [128], [256], [512], [1024]],
             oddPointwise := false, avgPoolSize := 3, clsActiv := true }
    else if version = "tiny" then
      some { channels := [[16], [32], [16, 128, 16, 128], [32, 256, 32, 256],
                          [64, 512, 64, 512, 128]],
             oddPointwise := true, avgPoolSize := 14, clsActiv := false }
    else if version = "19" then
      some { channels := [[32], [64], [128, 64, 128], [256, 128, 256],
                          [512, 256, 512, 256, 512], [1024, 512, 1024, 512, 1024]],
             oddPointwise := false, avgPoolSize := 7, clsActiv := false }
    else (none : Option VariantConfig)) with
  | none => Except.error (DarkNetError.unsupportedVariant version)
  | some cfg =>
    if pretrained then Except.error DarkNetError.pretrainedUnsupported
    else Except.ok (mkDarkNet cfg.channels cfg.oddPointwise cfg.avgPoolSize cfg.clsActiv)

/-- The primitive layers the assembled graph is made of, as handed to the
tensor engine. -/
inductive Layer where
  | conv (inChannels outChannels kernelSize padding : Nat) (useBias : Bool)
  | batchNorm (channels : Nat)
  | leakyReLU
  | maxPool (poolSize strides : Nat)
  | avgPool (poolSize strides : Nat)
  | flatten
  deriving Repr, DecidableEq

/-- The three engine layers a `DarkConv` block registers. -/
def blockLayers (b : ConvBlockSpec) : List Layer :=
  [Layer.conv b.inChannels b.outChannels b.kernelSize b.padding false,
   Layer.batchNorm b.outChannels, Layer.leakyReLU]

/-- The layers of one stage: its conv blocks, then the downsample if present. -/
def stageLayers (s : DarkStage) : List Layer :=
  s.blocks.flatMap blockLayers ++ (if s.downsample then [Layer.maxPool 2 2] else [])

/-- The layers of the head `self.output`: biased 1x1 projection conv, optional
leaky ReLU, average pool, flatten. -/
def headLayers (n : DarkNet) : List Layer :=
  [Layer.conv n.headInChannels n.classes 1 0 true] ++
    (if n.clsActiv then [Layer.leakyReLU] else []) ++
    [Layer.avgPool n.avgPoolSize 1, Layer.flatten]

/-- The full network in engine-layer order: all stages, then the head. -/
def netLayers (n : DarkNet) : List Layer :=
  n.stages.flatMap stageLayers ++ headLayers n

/-- A tensor shape: rank 4 `(batch, channels, height, width)` or rank 2
`(batch, features)` after flattening. -/
inductive Shape where
  | t4 (n c h w : Nat)
  | t2 (n d : Nat)
  deriving Repr, DecidableEq

/-- Shape semantics of one layer (stride-1 convolution: `h + 2p - k + 1`;
`valid`-convention pooling: `(h - k) / s + 1`); `none` on a shape mismatch. -/
def applyLayer : Layer → Shape → Option Shape
  | Layer.conv cin cout k p _, Shape.t4 n c h w =>
    if c = cin ∧ 0 < k ∧ k ≤ h + 2 * p ∧ k ≤ w + 2 * p then
      some (Shape.t4 n cout (h + 2 * p - k + 1) (w + 2 * p - k + 1))
    else none
  | Layer.batchNorm ch, Shape.t4 n c h w =>
    if c = ch then some (Shape.t4 n c h w) else none
  | Layer.leakyReLU, s => some s
  | Layer.maxPool k s, Shape.t4 n c h w =>
    if 0 < s ∧ k ≤ h ∧ k ≤ w then
      some (Shape.t4 n c ((h - k) / s + 1) ((w - k) / s + 1))
    else none
  | Layer.avgPool k s, Shape.t4 n c h w =>
    if 0 < s ∧ k ≤ h ∧ k ≤ w then
      some (Shape.t4 n c ((h - k) / s + 1) ((w - k) / s + 1))
    else none
  | Layer.flatten, Shape.t4 n c h w => some (Shape.t2 n (c * h * w))
  | Layer.flatten, Shape.t2 n d => some (Shape.t2 n d)
  | _, Shape.t2 _ _ => none

/-- Threads a shape through a layer list, failing if any layer rejects it. -/
def runLayers (ls : List Layer) (s : Shape) : Option Shape :=
  ls.foldlM (fun sh l => applyLayer l sh) s

/-- Differentiable trainable parameter elements a layer registers: a conv has
`out*in*k*k` weights plus `out` biases when biased; a batch norm has the two
differentiable vectors gamma and beta (`2 * channels` elements; the running
statistics are not differentiable); other layers have none. -/
def layerParamCount : Layer → Nat
  | Layer.conv cin cout k _ useBias => cout * cin * k * k + (if useBias then cout else 0)
  | Layer.batchNorm ch => 2 * ch
  | _ => 0

/-- Total differentiable trainable parameter count of a network. -/
def paramCount (n : DarkNet) : Nat :=
  ((netLayers n).map layerParamCount).sum

/-- `resolve` then count parameters, for a variant name (no pretrained). -/
def variantParamCount (version : String) : Option Nat :=
  (get_darknet version false).toOption.map paramCount

/-- `resolve`, `assemble` and run the forward shape semantics on an input of
shape `(1, 3, 224, 224)`. -/
def variantForwardShape (version : String) : Option Shape :=
  (get_darknet version false).toOption.bind
    (fun n => runLayers (netLayers n) (Shape.t4 1 3 224 224))

/-- The shape after the feature stages only (before the head). -/
def variantFeatureShape (version : String) : Option Shape :=
  (get_darknet version false).toOption.bind
    (fun n => runLayers (n.stages.flatMap stageLayers) (Shape.t4 1 3 224 224))

/-- All conv blocks of a network in assembly order, across stage boundaries. -/
def allBlocks (n : DarkNet) : List ConvBlockSpec :=
  n.stages.flatMap (fun s => s.blocks)

/-- The channel count live after feeding `xs` starting from `c`: the last
block's output channels, or `c` when there is no block. -/
def outAfter (c : Nat) (xs : List ConvBlockSpec) : Nat :=
  xs.foldl (fun _ b => b.outChannels) c

/-- The channel-threading predicate: starting from channel count `c`, each
block's input channels equal the running count, which its output channels then
replace. -/
def chainedFrom (c : Nat) : List ConvBlockSpec → Prop
  | [] => True
  | b :: bs => b.inChannels = c ∧ chainedFrom b.outChannels bs

theorem stageBlocksAux_fst_length (L : Nat) (op : Bool) :
    ∀ (cps : List Nat) (inC j : Nat), ((stageBlocksAux L op cps inC j).1).length = cps.length := by
  intro cps
  induction cps with
  | nil => intro inC j; rfl
  | cons c rest ih => intro inC j; simp [stageBlocksAux, ih]

theorem stageBlocksAux_getElem (L : Nat) (op : Bool) :
    ∀ (cps : List Nat) (inC j k : Nat), k < cps.length →
      ((stageBlocksAux L op cps inC j).1)[k]? =
        some (dark_convYxY ((inC :: cps).getD k 0) (cps.getD k 0)
          (pointwiseFlag L (j + k) op)) := by
  intro cps
  induction cps with
  | nil => intro inC j k hk; simp at hk
  | cons c rest ih =>
    intro inC j k hk
    cases k with
    | zero => simp [stageBlocksAux]
    | succ k' =>
      have hk' : k' < rest.length := by simpa using hk
      have := ih c (j + 1) k' hk'
      simp only [stageBlocksAux, List.getElem?_cons_succ, List.getD_cons_succ]
      rw [this]
      have hadd : j + 1 + k' = j + (k' + 1) := by omega
      rw [hadd]

theorem pointwiseFlag_eq_decide (L j : Nat) (op : Bool) :
    pointwiseFlag L j op = decide (1 < L ∧ decide ((j + 1) % 2 = 1) = op) := by
  unfold pointwiseFlag
  cases op <;> cases h : decide ((j + 1) % 2 = 1) <;> simp [h]

theorem dark_convYxY_kp (i o : Nat) (p : Bool) :
    ((dark_convYxY i o p).kernelSize, (dark_convYxY i o p).padding) =
      if p then (1, 0) else (3, 1) := by
  cases p <;> rfl

theorem buildStagesAux_downsample (op : Bool) (total : Nat) :
    ∀ (channels : List (List Nat)) (inC i k : Nat), k < channels.length →
      (((buildStagesAux op total channels inC i).1)[k]?.map (fun s => s.downsample)) =
        some (decide (i + k ≠ total - 1)) := by
  intro channels
  induction channels with
  | nil => intro inC i k hk; simp at hk
  | cons cps rest ih =>
    intro inC i k hk
    cases k with
    | zero => simp [buildStagesAux]
    | succ k' =>
      have hk' : k' < rest.length := by simpa using hk
      have := ih (stageBlocks cps inC op).2 (i + 1) k' hk'
      simp only [buildStagesAux, List.getElem?_cons_succ]
      rw [this]
      have hadd : i + 1 + k' = i + (k' + 1) := by omega
      rw [hadd]

theorem chainedFrom_append :
    ∀ (xs ys : List ConvBlockSpec) (c : Nat),
      chainedFrom c (xs ++ ys) ↔ chainedFrom c xs ∧ chainedFrom (outAfter c xs) ys := by
  intro xs
  induction xs with
  | nil => intro ys c; simp [chainedFrom, outAfter]
  | cons b bs ih =>
    intro ys c
    have hout : outAfter c (b :: bs) = outAfter b.outChannels bs := rfl
    constructor
    · rintro ⟨h1, h2⟩
      have hrest := (ih ys b.outChannels).mp h2
      exact ⟨⟨h1, hrest.1⟩, by rw [hout]; exact hrest.2⟩
    · rintro ⟨⟨h1, h2⟩, h3⟩
      rw [hout] at h3
      exact ⟨h1, (ih ys b.outChannels).mpr ⟨h2, h3⟩⟩

theorem stageBlocksAux_chained (L : Nat) (op : Bool) :
    ∀ (cps : List Nat) (inC j : Nat),
      chainedFrom inC (stageBlocksAux L op cps inC j).1 ∧
      ((stageBlocksAux L op cps inC j).1).map (fun b => b.outChannels) = cps ∧
      (stageBlocksAux L op cps inC j).2 = outAfter inC (stageBlocksAux L op cps inC j).1 := by
  intro cps
  induction cps with
  | nil => intro inC j; exact ⟨trivial, rfl, rfl⟩
  | cons c rest ih =>
    intro inC j
    obtain ⟨h1, h2, h3⟩ := ih c (j + 1)
    refine ⟨⟨?_, ?_⟩, ?_, ?_⟩
    · cases hp : pointwiseFlag L j op <;> simp [stageBlocksAux, dark_convYxY,
        dark_conv1x1, dark_conv3x3, hp]
    · cases hp : pointwiseFlag L j op <;>
        simpa [stageBlocksAux, dark_convYxY, dark_conv1x1, dark_conv3x3, hp] using h1
    · cases hp : pointwiseFlag L j op <;>
        simpa [stageBlocksAux, dark_convYxY, dark_conv1x1, dark_conv3x3, hp] using h2
    · cases hp : pointwiseFlag L j op <;>
        simpa [stageBlocksAux, dark_convYxY, dark_conv1x1, dark_conv3x3, outAfter, hp] using h3

theorem stageBlocks_chained (cps : List Nat) (inC : Nat) (op : Bool) :
    chainedFrom inC (stageBlocks cps inC op).1 ∧
    ((stageBlocks cps inC op).1).map (fun b => b.outChannels) = cps ∧
    (stageBlocks cps inC op).2 = outAfter inC (stageBlocks cps inC op).1 :=
  stageBlocksAux_chained cps.length op cps inC 0

theorem buildStagesAux_chained (op : Bool) (total : Nat) :
    ∀ (channels : List (List Nat)) (inC i : Nat),
      chainedFrom inC (((buildStagesAux op total channels inC i).1).flatMap (fun s => s.blocks)) ∧
      ((((buildStagesAux op total channels inC i).1).flatMap (fun s => s.blocks)).map
        (fun b => b.outChannels)) = channels.flatten ∧
      (buildStagesAux op total channels inC i).2 =
        outAfter inC (((buildStagesAux op total channels inC i).1).flatMap (fun s => s.blocks)) := by
  intro channels
  induction channels with
  | nil => intro inC i; exact ⟨trivial, rfl, rfl⟩
  | cons cps rest ih =>
    intro inC i
    obtain ⟨s1, s2, s3⟩ := stageBlocks_chained cps inC op
    obtain ⟨h1, h2, h3⟩ := ih (stageBlocks cps inC op).2 (i + 1)
    have hflat : ((buildStagesAux op total (cps :: rest) inC i).1).flatMap (fun s => s.blocks) =
        (stageBlocks cps inC op).1 ++
          (((buildStagesAux op total rest (stageBlocks cps inC op).2 (i + 1)).1).flatMap
            (fun s => s.blocks)) := by
      simp [buildStagesAux]
    refine ⟨?_, ?_, ?_⟩
    · rw [hflat, chainedFrom_append]
      refine ⟨s1, ?_⟩
      rw [← s3]
      exact h1
    · rw [hflat, List.map_append, s2, h2, List.flatten_cons]
    · have hsnd : (buildStagesAux op total (cps :: rest) inC i).2 =
          (buildStagesAux op total rest (stageBlocks cps inC op).2 (i + 1)).2 := by
        simp [buildStagesAux]
      rw [hsnd, h3, hflat, s3]
      simp [outAfter, List.foldl_append]

/-- Claim C1: for every stage channel list and every 0-based block index `j`
in it, the assembled block uses a 1x1 (pointwise) kernel with padding 0 iff
the list length exceeds 1 and `(j + 1) % 2 == 1` equals `oddPointwise`;
otherwise it uses a 3x3 kernel with padding 1 (so for a single-block stage
every block is 3x3 regardless of `oddPointwise`). -/
theorem kernel_selection_rule (cps : List Nat) (inC : Nat) (op : Bool) (j : Nat)
    (hj : j < cps.length) :
    ((stageBlocks cps inC op).1[j]?.map (fun b => (b.kernelSize, b.padding))) =
      some (if 1 < cps.length ∧ decide ((j + 1) % 2 = 1) = op then (1, 0) else (3, 1)) := by
  rw [stageBlocks, stageBlocksAux_getElem cps.length op cps inC 0 j hj]
  rw [Option.map_some', Nat.zero_add, dark_convYxY_kp]
  have hpf := pointwiseFlag_eq_decide cps.length j op
  by_cases hP : 1 < cps.length ∧ decide ((j + 1) % 2 = 1) = op
  · simp [hpf, hP]
  · simp [hpf, hP]

/-- Witness for C1: in the single-block stage `[5]` (with `oddPointwise = true`)
the block at index 0 is 3x3 with padding 1. -/
theorem kernel_selection_rule_witness :
    ((stageBlocks [5] 4 true).1[0]?.map (fun b => (b.kernelSize, b.padding))) =
      some (3, 1) :=
  kernel_selection_rule [5] 4 true 0 (by decide)

/-- Claim C2 counterexample: assembling the length-4 stage `[16, 128, 16, 128]`
with `oddPointwise = false` makes the blocks at 1-indexed positions 1 and 3
spatial (3x3, padding 1) and those at positions 2 and 4 pointwise — the
opposite of the claimed pattern, whose position-1 block would be `(1, 0)`. -/
theorem alternation_pattern_counterexample :
    ((stageBlocks [16, 128, 16, 128] 32 false).1.map (fun b => (b.kernelSize, b.padding))) =
      [(3, 1), (1, 0), (3, 1), (1, 0)] ∧ ((3, 1) : Nat × Nat) ≠ (1, 0) :=
  ⟨rfl, by decide⟩

/-- Claim C2 (amended): for every stage of length 4 assembled with
`oddPointwise = false`, the blocks at 1-indexed positions 2 and 4 are pointwise
(1x1) and the blocks at positions 1 and 3 are spatial (3x3); with
`oddPointwise = true` the pattern inverts. -/
theorem alternation_pattern (a b c d inC : Nat) :
    ((stageBlocks [a, b, c, d] inC false).1.map (fun x => (x.kernelSize, x.padding))) =
      [(3, 1), (1, 0), (3, 1), (1, 0)] ∧
    ((stageBlocks [a, b, c, d] inC true).1.map (fun x => (x.kernelSize, x.padding))) =
      [(1, 0), (3, 1), (1, 0), (3, 1)] :=
  ⟨rfl, rfl⟩

/-- Claim C3: the total differentiable trainable parameter count equals exactly
7319416 for the `ref` variant, 1042104 for `tiny`, and 20842376 for `19`. -/
theorem variant_param_counts :
    variantParamCount "ref" = some 7319416 ∧
    variantParamCount "tiny" = some 1042104 ∧
    variantParamCount "19" = some 20842376 :=
  ⟨rfl, rfl, rfl⟩

/-- Claim C4: for each variant name, resolution and assembly succeed and the
forward shape semantics map `(1, 3, 224, 224)` to `(1, 1000)`; the stages
reduce the spatial size to the variant's average-pool window (3, 14 or 7),
which the head collapses to 1x1 before flattening. -/
theorem variant_forward_shapes :
    variantForwardShape "ref" = some (Shape.t2 1 1000) ∧
    variantForwardShape "tiny" = some (Shape.t2 1 1000) ∧
    variantForwardShape "19" = some (Shape.t2 1 1000) ∧
    variantFeatureShape "ref" = some (Shape.t4 1 1024 3 3) ∧
    variantFeatureShape "tiny" = some (Shape.t4 1 128 14 14) ∧
    variantFeatureShape "19" = some (Shape.t4 1 1024 7 7) :=
  ⟨rfl, rfl, rfl, rfl, rfl, rfl⟩

/-- Claim C5: in every assembled network the stage at index `i` carries the
trailing 2x2-window stride-2 max-downsampling step iff it is not the last
stage, and that downsample leaves the channel count unchanged (halving each
spatial dimension). -/
theorem downsample_after_each_nonlast_stage (channels : List (List Nat)) (op : Bool)
    (avg : Nat) (cls : Bool) (inC classes i n c h w : Nat)
    (hi : i < channels.length) (hh : 2 ≤ h) (hw : 2 ≤ w) :
    ((mkDarkNet channels op avg cls inC classes).stages[i]?.map (fun s => s.downsample)) =
      some (decide (i ≠ channels.length - 1)) ∧
    applyLayer (Layer.maxPool 2 2) (Shape.t4 n c h w) =
      some (Shape.t4 n c ((h - 2) / 2 + 1) ((w - 2) / 2 + 1)) := by
  constructor
  · have := buildStagesAux_downsample op channels.length channels inC 0 i hi
    simpa [mkDarkNet] using this
  · simp [applyLayer, hh, hw]

/-- Witness for C5: in a two-stage network the first stage has the downsample,
and the downsample maps `(1, 5, 4, 4)` to `(1, 5, 2, 2)`. -/
theorem downsample_after_each_nonlast_stage_witness :
    ((mkDarkNet [[3], [4]] false 1 false 3 10).stages[0]?.map (fun s => s.downsample)) =
      some true ∧
    applyLayer (Layer.maxPool 2 2) (Shape.t4 1 5 4 4) = some (Shape.t4 1 5 2 2) :=
  downsample_after_each_nonlast_stage [[3], [4]] false 1 false 3 10 0 1 5 4 4
    (by decide) (by decide) (by decide)

/-- Claim C6: channel threading — starting from the spec's `inChannels`, each
conv block's input channels equal the output channels of the block before it
in assembly order (across stage boundaries), each block's output channels are
the corresponding entry of the flattened stage channel lists, and the head's
projection convolution takes the channel count left after the last block. -/
theorem channel_threading (channels : List (List Nat)) (op : Bool) (avg : Nat)
    (cls : Bool) (inC classes : Nat) :
    chainedFrom inC (allBlocks (mkDarkNet channels op avg cls inC classes)) ∧
    ((allBlocks (mkDarkNet channels op avg cls inC classes)).map (fun b => b.outChannels)) =
      channels.flatten ∧
    (mkDarkNet channels op avg cls inC classes).headInChannels =
      outAfter inC (allBlocks (mkDarkNet channels op avg cls inC classes)) := by
  have := buildStagesAux_chained op channels.length channels inC 0
  simpa [mkDarkNet, allBlocks] using this

/-- Claim C7 counterexample: the call `get_darknet "foo" true` requests
pretrained parameters yet fails with the unsupported-variant error, which is
not the unsupported-operation error — so not 100% of pretrained calls fail
with the unsupported-operation error. -/
theorem pretrained_error_kind_counterexample :
    get_darknet "foo" true = Except.error (DarkNetError.unsupportedVariant "foo") ∧
    DarkNetError.unsupportedVariant "foo" ≠ DarkNetError.pretrainedUnsupported :=
  ⟨rfl, by decide⟩

/-- Claim C7 (amended): every call with the pretrained flag set fails and
produces no network; when the variant name is one of the three supported ones,
the error is the unsupported-operation (pretrained-unsupported) error. -/
theorem pretrained_always_fails (version : String) (pretrained : Bool)
    (hp : pretrained = true) :
    (∃ e, get_darknet version pretrained = Except.error e) ∧
    ((version = "ref" ∨ version = "tiny" ∨ version = "19") →
      get_darknet version pretrained = Except.error DarkNetError.pretrainedUnsupported) := by
  subst hp
  by_cases h1 : version = "ref"
  · subst h1; exact ⟨⟨DarkNetError.pretrainedUnsupported, rfl⟩, fun _ => rfl⟩
  · by_cases h2 : version = "tiny"
    · subst h2; exact ⟨⟨DarkNetError.pretrainedUnsupported, rfl⟩, fun _ => rfl⟩
    · by_cases h3 : version = "19"
      · subst h3; exact ⟨⟨DarkNetError.pretrainedUnsupported, rfl⟩, fun _ => rfl⟩
      · refine ⟨⟨DarkNetError.unsupportedVariant version, ?_⟩, ?_⟩
        · simp [get_darknet, h1, h2, h3]
        · rintro (h | h | h) <;> [exact absurd h h1; exact absurd h h2; exact absurd h h3]

/-- Witness for C7 (amended) at the supported variant `tiny`. -/
theorem pretrained_always_fails_witness :
    (∃ e, get_darknet "tiny" true = Except.error e) ∧
    (("tiny" = "ref" ∨ "tiny" = "tiny" ∨ "tiny" = "19") →
      get_darknet "tiny" true = Except.error DarkNetError.pretrainedUnsupported) :=
  pretrained_always_fails "tiny" true rfl

/-- Claim C8: for every variant name other than `ref`, `tiny` and `19` (and
either value of the pretrained flag), resolution fails with the
unsupported-variant error and no network is constructed. -/
theorem unknown_variant_fails (version : String) (pretrained : Bool)
    (h1 : version ≠ "ref") (h2 : version ≠ "tiny") (h3 : version ≠ "19") :
    get_darknet version pretrained = Except.error (DarkNetError.unsupportedVariant version) := by
  simp [get_darknet, h1, h2, h3]

/-- Witness for C8 at the unknown name `foo`. -/
theorem unknown_variant_fails_witness :
    get_darknet "foo" false = Except.error (DarkNetError.unsupportedVariant "foo") :=
  unknown_variant_fails "foo" false (by decide) (by decide) (by decide)

/-- Claim C9: when the variant name is unknown and pretrained parameters are
requested in the same call, the variant-name check wins: the call fails with
the unsupported-variant error, which differs from the unsupported-operation
error. -/
theorem unknown_variant_precedes_pretrained (version : String)
    (h1 : version ≠ "ref") (h2 : version ≠ "tiny") (h3 : version ≠ "19") :
    get_darknet version true = Except.error (DarkNetError.unsupportedVariant version) ∧
    (Except.error (DarkNetError.unsupportedVariant version) :
        Except DarkNetError DarkNet) ≠
      Except.error DarkNetError.pretrainedUnsupported := by
  constructor
  · simp [get_darknet, h1, h2, h3]
  · intro h
    exact DarkNetError.noConfusion (Except.error.inj h)

/-- Witness for C9 at the unknown name `bar`. -/
theorem unknown_variant_precedes_pretrained_witness :
    get_darknet "bar" true = Except.error (DarkNetError.unsupportedVariant "bar") ∧
    (Except.error (DarkNetError.unsupportedVariant "bar") :
        Except DarkNetError DarkNet) ≠
      Except.error DarkNetError.pretrainedUnsupported :=
  unknown_variant_precedes_pretrained "bar" (by decide) (by decide) (by decide)

/-- Claim C10: the constructor validates nothing — an empty list of stages
yields a network with no stages whose head input is the unchanged initial
`inChannels`, and an empty per-stage channel list yields a stage with zero conv
blocks that still carries the downsample exactly when it is not last. -/
theorem no_spec_validation (op : Bool) (avg : Nat) (cls : Bool) (inC classes : Nat)
    (rest : List (List Nat)) :
    (mkDarkNet [] op avg cls inC classes).stages = [] ∧
    (mkDarkNet [] op avg cls inC classes).headInChannels = inC ∧
    (mkDarkNet ([] :: rest) op avg cls inC classes).stages.head? =
      some { blocks := [], downsample := decide (rest ≠ []) } := by
  refine ⟨rfl, rfl, ?_⟩
  cases rest with
  | nil => rfl
  | cons r rs => simp [mkDarkNet, buildStagesAux, stageBlocks, stageBlocksAux]

end DarkNetModel
